import Mathlib

/-!
# Verification of the Antigravity quota aggregation pipeline

Shallow embedding of `internal/api/handlers/management/antigravity_quota.go`
from `tucoi052/CLIProxyAPI`.

Modelling conventions:
* HTTP traffic is abstracted as "world" functions: each endpoint URL (resp.
  each probed model name) is mapped to the response the network would return.
  The classification logic applied to those responses is translated verbatim.
* `json.Unmarshal` is an external library call; a 200-response therefore
  carries the decode results for the two candidate formats (`arrayModels`,
  `mapModels`) directly, with `none` standing for a decode error.  The raw
  `body` string is kept because the Go code embeds it in error messages.
* Go `float64` quota percentages are modelled as `ℚ`.  Every arithmetic
  operation performed by the code (`remaining / limit * 100`,
  `fraction * 100`) is exact at the values the claims mention, so the
  rational model agrees with the IEEE-754 evaluation there.
* Timestamps (`LastUpdated`, `time.Now()`) carry no quota information and are
  omitted from the result records.  `time.Parse(time.RFC3339, ...)` is an
  external call and is modelled as an oracle `parse : String → Option Int`
  together with the current instant `now : Int`.
* Go map iteration (format-B models) is modelled as an association list.
* The network calls a resolution task performs are returned alongside its
  result as an explicit trace, so "no further endpoint is tried" and "zero
  network calls" are provable statements.
-/

namespace AntigravityQuota

/-- `strings.Contains s sub` from the Go standard library. -/
def goContains (s sub : String) : Bool :=
  s.toList.tails.any (fun t => sub.toList.isPrefixOf t)

/-- Maximal leading run of decimal digits, together with its value.
Fails when the first character is not a digit. -/
def parseDigits : List Char → Option Nat
  | [] => none
  | c :: cs =>
    if c.isDigit then
      some (cs.takeWhile Char.isDigit |>.foldl
        (fun acc d => acc * 10 + (d.toNat - 48)) (c.toNat - 48))
    else none

/-- `fmt.Sscanf(s, "%d", &x)` from Go: skip leading white space, read an
optional sign followed by at least one digit; trailing characters are
ignored.  (Overflow of the machine `int` is not modelled; header values in
scope are small.) -/
def sscanfInt (s : String) : Option Int :=
  match s.toList.dropWhile Char.isWhitespace with
  | '-' :: rest => (parseDigits rest).map (fun n => -(n : Int))
  | '+' :: rest => (parseDigits rest).map (fun n => (n : Int))
  | l => (parseDigits l).map (fun n => (n : Int))

/-- `ModelQuota` (antigravity_quota.go lines 53-58); `RemainingPercent`
is `float64` in Go, modelled as `ℚ`. -/
structure ModelQuota where
  model : String
  displayName : String
  remainingPercent : ℚ
  resetTime : String
  deriving DecidableEq, Repr

/-- `AccountQuota` (lines 43-50) without the `LastUpdated` timestamp.
An unset Go `Error` field is the empty string. -/
structure AccountQuota where
  email : String
  projectID : String
  status : String
  modelQuotas : List ModelQuota
  error : String
  deriving DecidableEq, Repr

/-- `getDisplayName` (lines 502-525).  The switch inlined in
`extractQuotaForModel` (lines 739-759) is character-for-character the same
mapping, so both call sites share this definition. -/
def getDisplayName (modelName : String) : String :=
  if modelName = "gemini-2.5-pro" then "Gemini 2.5 Pro"
  else if modelName = "gemini-2.5-flash" then "Gemini 2.5 Flash"
  else if modelName = "gemini-2.0-flash" then "Gemini 2.0 Flash"
  else if modelName = "gemini-2.0-flash-lite" then "Gemini 2.0 Flash Lite"
  else if modelName = "gemini-2.0-flash-exp" then "Gemini 2.0 Flash Exp"
  else if modelName = "gemini-exp-1206" then "Gemini Exp"
  else if modelName = "gemini-claude-sonnet-4-5" ∨ modelName = "gemini-claude-sonnet-4-5-thinking" then "Claude Sonnet 4.5"
  else if modelName = "gemini-claude-opus-4-5" ∨ modelName = "gemini-claude-opus-4-5-thinking" then "Claude Opus 4.5"
  else if modelName = "imagen-3.0-generate-002" then "Imagen 3"
  else modelName

/-- The response observed by one `generateContent` probe call
(`extractQuotaForModel`): the HTTP status and the three rate-limit
headers; a header that is absent is the empty string, exactly as
`resp.Header.Get` returns it. -/
structure ProbeResponse where
  statusCode : Nat
  limitHeader : String
  remainingHeader : String
  resetHeader : String
  deriving DecidableEq, Repr

/-- `extractQuotaForModel` (lines 638-769).  `none` in place of a response
models a transport failure of `httpClient.Do` (the only early `error`
return reachable in the model).  The HTTP status code of a received
response is only logged by the Go code, never branched on; accordingly the
result below never inspects `statusCode`. -/
def extractQuotaForModel (resp : Option ProbeResponse) (modelName : String) :
    Except String (Option ModelQuota) :=
  match resp with
  | none => .error "execute request: transport error"
  | some r =>
    if r.limitHeader = "" ∨ r.remainingHeader = "" then .ok none
    else
      match sscanfInt r.limitHeader with
      | none => .ok none
      | some limit =>
        if limit = 0 then .ok none
        else
          match sscanfInt r.remainingHeader with
          | none => .ok none
          | some remaining =>
            .ok (some
              { model := modelName
                displayName := getDisplayName modelName
                remainingPercent := (remaining : ℚ) / (limit : ℚ) * 100
                resetTime := r.resetHeader })

/-- `modelsToCheck` (lines 600-609): the fixed probe list. -/
def modelsToCheck : List String :=
  ["gemini-2.5-pro", "gemini-2.5-flash", "gemini-2.0-flash",
   "gemini-2.0-flash-lite", "gemini-exp-1206", "gemini-claude-sonnet-4-5",
   "gemini-claude-opus-4-5", "imagen-3.0-generate-002"]

/-- The quota the probe loop keeps for one model: errors and absent header
data are both skipped (`continue` at line 619, `quota != nil` at line 621). -/
def extractedQuota (probe : String → Option ProbeResponse) (m : String) :
    Option ModelQuota :=
  match extractQuotaForModel (probe m) m with
  | .error _ => none
  | .ok q => q

/-- `fetchQuotaFromHeaders` (lines 596-635): probe every model in
`modelsToCheck`, keep the extracted quotas, fail only when none of the
models yielded data. -/
def fetchQuotaFromHeaders (probe : String → Option ProbeResponse) :
    Except String (List ModelQuota) :=
  let quotas := modelsToCheck.filterMap (extractedQuota probe)
  if quotas.isEmpty then .error "no quota information extracted from headers"
  else .ok quotas

/-- One entry of the format-A (`fetchAvailableModelsResponseArray`, lines
66-77) decode: a model name and its `rateLimit` fields.  `tpmLimit` and
`remainingTpm` are decoded by Go but never read, so they are omitted. -/
structure ArrayModelEntry where
  model : String
  rpmLimit : Int
  remainingRpm : Int
  resetTimeStamp : String
  deriving DecidableEq, Repr

/-- The optional `quotaInfo` block of one format-B model
(`fetchAvailableModelsResponseMap`, lines 80-87). -/
structure MapQuotaInfo where
  remainingFraction : Option ℚ
  resetTime : Option String
  deriving DecidableEq, Repr

/-- A response from a quota endpoint as seen after `io.ReadAll`:
the status code, the raw body (used in error messages), and the results of
the two `json.Unmarshal` attempts on that body — `none` when the decode
errors, `some` with the decoded model list otherwise (format-B's Go map is
given in iteration order). -/
structure EndpointResponse where
  statusCode : Nat
  body : String
  arrayModels : Option (List ArrayModelEntry)
  mapModels : Option (List (String × Option MapQuotaInfo))
  deriving DecidableEq, Repr

/-- The outcome of `httpClient.Do` against one quota endpoint:
a transport failure (`execute request: %w`) or a received response. -/
inductive EndpointOutcome where
  | transportError (msg : String)
  | response (r : EndpointResponse)
  deriving DecidableEq, Repr

/-- `buildQuotasFromArray` (lines 437-464): models with a zero `rpmLimit`
are skipped, the rest contribute `remainingRpm / rpmLimit * 100`. -/
def buildQuotasFromArray (email projectID : String)
    (models : List ArrayModelEntry) : AccountQuota :=
  { email := email
    projectID := projectID
    status := "active"
    modelQuotas := models.filterMap (fun m =>
      if m.rpmLimit = 0 then none
      else some
        { model := m.model
          displayName := getDisplayName m.model
          remainingPercent := (m.remainingRpm : ℚ) / (m.rpmLimit : ℚ) * 100
          resetTime := m.resetTimeStamp })
    error := "" }

/-- `buildQuotasFromMap` (lines 467-499): models whose `quotaInfo` block or
`remainingFraction` is absent are skipped, the rest contribute
`remainingFraction * 100`. -/
def buildQuotasFromMap (email projectID : String)
    (models : List (String × Option MapQuotaInfo)) : AccountQuota :=
  { email := email
    projectID := projectID
    status := "active"
    modelQuotas := models.filterMap (fun entry =>
      match entry.2 with
      | none => none
      | some qi =>
        match qi.remainingFraction with
        | none => none
        | some f => some
          { model := entry.1
            displayName := getDisplayName entry.1
            remainingPercent := f * 100
            resetTime := qi.resetTime.getD "" })
    error := "" }

/-- The `len > 500` truncation applied to the body before it is embedded in
the parse-failure message (lines 412-415). -/
def responsePreview (s : String) : String :=
  if s.length > 500 then (s.take 500).push '.' |>.push '.' |>.push '.'
  else s

/-- The two-format decode applied to a 200 body (lines 418-433): the array
format wins when it yields at least one model, then the map format is
tried under the same condition, and the `ParseError` message embeds the
truncated body otherwise. -/
def parseQuotaBody (r : EndpointResponse) (email projectID : String) :
    Except String AccountQuota :=
  match r.arrayModels with
  | some ms =>
    if 0 < ms.length then .ok (buildQuotasFromArray email projectID ms)
    else
      match r.mapModels with
      | some mm =>
        if 0 < mm.length then .ok (buildQuotasFromMap email projectID mm)
        else .error ("parse response: failed to parse as array or map format. Response: " ++ responsePreview r.body)
      | none => .error ("parse response: failed to parse as array or map format. Response: " ++ responsePreview r.body)
  | none =>
    match r.mapModels with
    | some mm =>
      if 0 < mm.length then .ok (buildQuotasFromMap email projectID mm)
      else .error ("parse response: failed to parse as array or map format. Response: " ++ responsePreview r.body)
    | none => .error ("parse response: failed to parse as array or map format. Response: " ++ responsePreview r.body)

/-- `callQuotaEndpoint` (lines 362-434): classify the response by status
code, then on 200 run the two-format decode. -/
def callQuotaEndpoint (out : EndpointOutcome) (email projectID : String) :
    Except String AccountQuota :=
  match out with
  | .transportError m => .error ("execute request: " ++ m)
  | .response r =>
    if r.statusCode = 401 then .error "unauthorized: access token expired"
    else if r.statusCode = 403 then .error ("forbidden: " ++ r.body)
    else if r.statusCode = 404 then .error "404: endpoint not found"
    else if r.statusCode ≠ 200 then
      .error ("API returned " ++ toString r.statusCode ++ ": " ++ r.body)
    else parseQuotaBody r email projectID

/-- `endpoints` (lines 288-292): the three candidate base URLs, in order. -/
def endpoints : List String :=
  ["https://daily-cloudcode-pa.googleapis.com/v1internal:fetchAvailableModels",
   "https://daily-cloudcode-pa.sandbox.googleapis.com/v1internal:fetchAvailableModels",
   "https://cloudcode-pa.googleapis.com/v1internal:fetchAvailableModels"]

/-- One outbound network call made by a resolution task. -/
inductive NetCall where
  | quotaCall (endpoint : String)
  | probeCall (model : String)
  | refreshCall
  deriving DecidableEq, Repr

/-- The 401 substring test of line 304:
`strings.Contains(err.Error(), "unauthorized") || strings.Contains(err.Error(), "access token expired")`. -/
def matchesUnauthorized (msg : String) : Bool :=
  goContains msg "unauthorized" || goContains msg "access token expired"

/-- The 403 substring test of line 315:
`strings.Contains(err.Error(), "forbidden") || strings.Contains(err.Error(), "banned")`. -/
def matchesForbidden (msg : String) : Bool :=
  goContains msg "forbidden" || goContains msg "banned"

/-- The terminal result built when an error message matches the 401
substring test (lines 305-311). -/
def inactiveReauth (email projectID : String) : AccountQuota :=
  { email := email
    projectID := projectID
    status := "inactive"
    modelQuotas := []
    error := "Access token expired. Please re-login: CLIProxyAPI -antigravity-login" }

/-- The terminal result of the "All endpoints failed" block
(lines 346-358): `errorMsg` is the last observed error, or the placeholder
when no endpoint was ever tried. -/
def errorResult (email projectID : String) (lastError : Option String) :
    AccountQuota :=
  { email := email
    projectID := projectID
    status := "error"
    modelQuotas := []
    error := lastError.getD "Failed to fetch quota" }

/-- The endpoint loop of `fetchQuotaForAccount` (lines 294-358), with the
remaining candidate list and Go's `lastError` made explicit, returning the
result together with the trace of network calls.  Branch order is the
source's: success, the 401 substring test, the 403 substring test (which
runs `fetchQuotaFromHeaders` — all eight probes — and is terminal either
way), then `break` unless the message contains `"404"`. -/
def fetchLoop (world : String → EndpointOutcome)
    (probe : String → Option ProbeResponse) (email projectID : String) :
    List String → Option String → AccountQuota × List NetCall
  | [], lastError => (errorResult email projectID lastError, [])
  | e :: rest, _ =>
    match callQuotaEndpoint (world e) email projectID with
    | .ok q => (q, [.quotaCall e])
    | .error msg =>
      if matchesUnauthorized msg then
        (inactiveReauth email projectID, [.quotaCall e])
      else if matchesForbidden msg then
        match fetchQuotaFromHeaders probe with
        | .ok quotas =>
          ({ email := email, projectID := projectID, status := "active"
             modelQuotas := quotas, error := "" },
           .quotaCall e :: modelsToCheck.map .probeCall)
        | .error fallbackErr =>
          ({ email := email, projectID := projectID, status := "inactive"
             modelQuotas := []
             error := "Access forbidden and fallback failed: " ++ fallbackErr },
           .quotaCall e :: modelsToCheck.map .probeCall)
      else if ¬ goContains msg "404" then
        (errorResult email projectID (some msg), [.quotaCall e])
      else
        let next := fetchLoop world probe email projectID rest (some msg)
        (next.1, .quotaCall e :: next.2)

/-- `fetchQuotaForAccount` (lines 281-359). -/
def fetchQuotaForAccount (world : String → EndpointOutcome)
    (probe : String → Option ProbeResponse) (email projectID : String) :
    AccountQuota × List NetCall :=
  fetchLoop world probe email projectID endpoints none

/-- A value in the credential record's free-form metadata map
(`map[string]any`): the handler only ever type-asserts to `string`,
so any other dynamic type is collapsed into `other`. -/
inductive MetaVal where
  | str (s : String)
  | other
  deriving DecidableEq, Repr

/-- A credential record from the external store (`h.authManager.List()`):
provider tag, opaque id, optional metadata map (an association list with
Go-map key uniqueness not needed by any claim). -/
structure AuthRecord where
  id : String
  provider : String
  metadata : Option (List (String × MetaVal))
  deriving DecidableEq, Repr

/-- `auth.Metadata[k].(string)` with `ok` folded in: `none` when the map is
nil, the key is missing, or the value is not a string. -/
def metaStr (md : Option (List (String × MetaVal))) (k : String) :
    Option String :=
  match md with
  | none => none
  | some l =>
    match l.lookup k with
    | some (.str s) => some s
    | _ => none

/-- The snapshot kept per selected account (the anonymous struct at lines
101-108). -/
structure SelectedAuth where
  email : String
  projectID : String
  accessToken : String
  refreshToken : String
  authID : String
  expired : Bool
  deriving DecidableEq, Repr

/-- The expiry check of lines 148-163: empty marker or a marker that fails
`time.Parse` counts as not expired; otherwise expired iff `now` is strictly
after the parsed instant.  `parse` is the external RFC3339 parser. -/
def isExpiredOf (parse : String → Option Int) (now : Int)
    (expiredStr : String) : Bool :=
  if expiredStr = "" then false
  else
    match parse expiredStr with
    | none => false
    | some t => t < now

/-- The body of the filter loop (lines 110-185) for one record: `none`
when the record is not an antigravity credential or has an empty access
token, otherwise the extracted snapshot. -/
def toSelected (parse : String → Option Int) (now : Int) (a : AuthRecord) :
    Option SelectedAuth :=
  let isAntigravity :=
    a.provider = "antigravity" ∨ metaStr a.metadata "type" = some "antigravity"
  if ¬ isAntigravity then none
  else
    let accessToken := (metaStr a.metadata "access_token").getD ""
    if accessToken = "" then none
    else some
      { email := (metaStr a.metadata "email").getD ""
        projectID := (metaStr a.metadata "project_id").getD ""
        accessToken := accessToken
        refreshToken := (metaStr a.metadata "refresh_token").getD ""
        authID := a.id
        expired := isExpiredOf parse now ((metaStr a.metadata "expired").getD "") }

/-- The credential filter of `GetAntigravityQuota` (lines 110-185). -/
def selectAntigravity (parse : String → Option Int) (now : Int)
    (auths : List AuthRecord) : List SelectedAuth :=
  auths.filterMap (toSelected parse now)

/-- The outcome of `h.refreshAccessToken` (lines 528-564): a fresh token
with its lifetime, or an error. -/
inductive RefreshOutcome where
  | ok (newToken : String) (expiresIn : Int)
  | err (msg : String)

/-- The network behaviour one resolution task runs against: the OAuth
refresh exchange (keyed by refresh token), the quota endpoints (keyed by
URL), and the generation-API probe (keyed by model name). -/
structure World where
  refresh : String → RefreshOutcome
  endpoint : String → EndpointOutcome
  probe : String → Option ProbeResponse

/-- The goroutine body of lines 193-235 for one account, with its network
trace.  (`h.updateAuthToken` after a successful refresh writes to the
credential store, not to the quota API, and does not affect the result.) -/
def accountTask (w : World) (a : SelectedAuth) : AccountQuota × List NetCall :=
  if a.expired ∧ a.refreshToken ≠ "" then
    match w.refresh a.refreshToken with
    | .err msg =>
      ({ email := a.email, projectID := a.projectID, status := "inactive"
         modelQuotas := [], error := "Token refresh failed: " ++ msg },
       [.refreshCall])
    | .ok _ _ =>
      let r := fetchQuotaForAccount w.endpoint w.probe a.email a.projectID
      (r.1, .refreshCall :: r.2)
  else if a.expired then
    ({ email := a.email, projectID := a.projectID, status := "inactive"
       modelQuotas := []
       error := "Access token expired and no refresh token available" },
     [])
  else
    fetchQuotaForAccount w.endpoint w.probe a.email a.projectID

/-- `AntigravityQuotaResponse` (lines 33-40) without the timestamp. -/
structure QuotaReport where
  totalAccounts : Nat
  activeAccounts : Nat
  inactiveAccounts : Nat
  errorAccounts : Nat
  accounts : List AccountQuota
  deriving DecidableEq, Repr

/-- The statistics pass of lines 250-265.  The Go `switch` increments one
counter per account; since the three case labels are distinct strings the
switch counts coincide with the three `countP`s below. -/
def tallyReport (accounts : List AccountQuota) : QuotaReport :=
  { totalAccounts := accounts.length
    activeAccounts := accounts.countP (fun a => a.status = "active")
    inactiveAccounts := accounts.countP (fun a => a.status = "inactive")
    errorAccounts := accounts.countP (fun a => a.status = "error")
    accounts := accounts }

/-- `GetAntigravityQuota` (lines 90-278) on the success path (the auth
manager present): filter the credentials, run one resolution task per
selected account, tally.  Goroutine completion order is nondeterministic in
Go; the embedding fixes input order, which the counting and membership
claims are insensitive to.  `worlds` gives each account its own network
behaviour. -/
def getAntigravityQuota (parse : String → Option Int) (now : Int)
    (worlds : SelectedAuth → World) (auths : List AuthRecord) : QuotaReport :=
  let selected := selectAntigravity parse now auths
  tallyReport (selected.map (fun a => (accountTask (worlds a) a).1))

/-! ## Helper lemmas -/

/-- Containment is preserved when the string is extended on the left. -/
theorem goContains_append_right {b sub : String} (a : String)
    (h : goContains b sub = true) : goContains (a ++ b) sub = true := by
  unfold goContains at h ⊢
  rw [List.any_eq_true] at h ⊢
  obtain ⟨t, ht, hpre⟩ := h
  refine ⟨t, (List.mem_tails _ _).2 ?_, hpre⟩
  have hsuf : t <:+ b.toList := (List.mem_tails _ _).1 ht
  have : (a ++ b).toList = a.toList ++ b.toList := by simp [String.toList]
  rw [this]
  exact hsuf.trans (List.suffix_append _ _)

/-- Containment is preserved when the string is extended on the right,
provided the pattern starts the left part. -/
theorem goContains_append_left {a sub : String} (b : String)
    (h : sub.toList <+: a.toList) :
    goContains (a ++ b) sub = true := by
  unfold goContains
  rw [List.any_eq_true]
  have habs : (a ++ b).toList = a.toList ++ b.toList := by simp [String.toList]
  refine ⟨(a ++ b).toList, (List.mem_tails _ _).2 (List.suffix_refl _), ?_⟩
  rw [habs]
  exact List.isPrefixOf_iff_prefix.2 (h.trans (List.prefix_append _ _))

/-- `filterMap` keeps exactly the elements the function accepts. -/
theorem length_filterMap_eq_countP {α β : Type} (f : α → Option β)
    (l : List α) :
    (l.filterMap f).length = l.countP (fun a => (f a).isSome) := by
  induction l with
  | nil => rfl
  | cons x xs ih =>
    cases h : f x <;> simp [List.filterMap_cons, h, List.countP_cons, ih]

/-- `sscanfInt` rejects the empty string, so a successful parse implies the
header was present. -/
theorem sscanfInt_empty : sscanfInt "" = none := rfl

/-- The status values the pipeline can produce. -/
def validStatus (s : String) : Prop :=
  s = "active" ∨ s = "inactive" ∨ s = "error"

/-- The two-format decode only ever succeeds with an `"active"` quota
(both format builders hard-code the status). -/
theorem parseQuotaBody_ok_active {r : EndpointResponse}
    {email projectID : String} {q : AccountQuota}
    (h : parseQuotaBody r email projectID = .ok q) : q.status = "active" := by
  unfold parseQuotaBody at h
  cases har : r.arrayModels with
  | some ms =>
    rw [har] at h
    simp only at h
    split_ifs at h with hl <;>
    first
    | (injection h with h2; rw [← h2]; rfl)
    | exact absurd h (by simp)
    | (cases hmr : r.mapModels with
       | some mm =>
         rw [hmr] at h
         simp only at h
         split_ifs at h with hm <;>
         first
         | (injection h with h2; rw [← h2]; rfl)
         | exact absurd h (by simp)
       | none => rw [hmr] at h; exact absurd h (by simp))
  | none =>
    rw [har] at h
    simp only at h
    cases hmr : r.mapModels with
    | some mm =>
      rw [hmr] at h
      simp only at h
      split_ifs at h with hm <;>
      first
      | (injection h with h2; rw [← h2]; rfl)
      | exact absurd h (by simp)
    | none => rw [hmr] at h; exact absurd h (by simp)

/-- Any quota a quota endpoint successfully returns has status `"active"`. -/
theorem callQuotaEndpoint_ok_active {out : EndpointOutcome}
    {email projectID : String} {q : AccountQuota}
    (h : callQuotaEndpoint out email projectID = .ok q) :
    q.status = "active" := by
  cases out with
  | transportError m => simp [callQuotaEndpoint] at h
  | response r =>
    simp only [callQuotaEndpoint] at h
    split_ifs at h <;>
    first
    | exact absurd h (by simp)
    | exact parseQuotaBody_ok_active h

/-- Every result of the endpoint loop carries one of the three statuses. -/
theorem fetchLoop_validStatus (world : String → EndpointOutcome)
    (probe : String → Option ProbeResponse) (email projectID : String)
    (l : List String) (lastError : Option String) :
    validStatus (fetchLoop world probe email projectID l lastError).1.status := by
  induction l generalizing lastError with
  | nil => right; right; rfl
  | cons e rest ih =>
    unfold fetchLoop
    cases h : callQuotaEndpoint (world e) email projectID with
    | ok q => exact Or.inl (callQuotaEndpoint_ok_active h)
    | error msg =>
      simp only
      split_ifs
      · right; left; rfl
      · cases hf : fetchQuotaFromHeaders probe with
        | ok quotas => simp only [hf]; left; rfl
        | error fe => simp only [hf]; right; left; rfl
      · exact ih (some msg)
      · right; right; rfl

/-- Every result a resolution task produces carries one of the three
statuses — the spec's "`status` is never left unset". -/
theorem accountTask_validStatus (w : World) (a : SelectedAuth) :
    validStatus (accountTask w a).1.status := by
  unfold accountTask
  split_ifs
  · cases w.refresh a.refreshToken with
    | err msg => right; left; rfl
    | ok t e => exact fetchLoop_validStatus _ _ _ _ _ _
  · right; left; rfl
  · exact fetchLoop_validStatus _ _ _ _ _ _

/-- Loop step: a successful endpoint call is returned as-is. -/
theorem fetchLoop_cons_ok {world : String → EndpointOutcome}
    {probe : String → Option ProbeResponse} {email projectID e : String}
    {rest : List String} {last : Option String} {q : AccountQuota}
    (hcall : callQuotaEndpoint (world e) email projectID = .ok q) :
    fetchLoop world probe email projectID (e :: rest) last =
      (q, [.quotaCall e]) := by
  unfold fetchLoop
  rw [hcall]

/-- Loop step: an error matching the 401 substring test is terminal
`inactive` with the re-login message. -/
theorem fetchLoop_cons_unauth {world : String → EndpointOutcome}
    {probe : String → Option ProbeResponse} {email projectID e : String}
    {rest : List String} {last : Option String} {msg : String}
    (hcall : callQuotaEndpoint (world e) email projectID = .error msg)
    (hm : matchesUnauthorized msg = true) :
    fetchLoop world probe email projectID (e :: rest) last =
      (inactiveReauth email projectID, [.quotaCall e]) := by
  unfold fetchLoop
  rw [hcall]
  simp [hm]

/-- Loop step: an error matching the 403 substring test (and not the 401
one) runs the header probe; when the probe succeeds the account is
`active` with the probed quotas and no error text. -/
theorem fetchLoop_cons_forbidden_ok {world : String → EndpointOutcome}
    {probe : String → Option ProbeResponse} {email projectID e : String}
    {rest : List String} {last : Option String} {msg : String}
    {quotas : List ModelQuota}
    (hcall : callQuotaEndpoint (world e) email projectID = .error msg)
    (hu : matchesUnauthorized msg = false)
    (hf : matchesForbidden msg = true)
    (hfb : fetchQuotaFromHeaders probe = .ok quotas) :
    fetchLoop world probe email projectID (e :: rest) last =
      ({ email := email, projectID := projectID, status := "active"
         modelQuotas := quotas, error := "" },
       .quotaCall e :: modelsToCheck.map .probeCall) := by
  unfold fetchLoop
  rw [hcall]
  simp [hu, hf, hfb]

/-- Loop step: when the probe also fails, the account is terminal
`inactive` with the combined message. -/
theorem fetchLoop_cons_forbidden_err {world : String → EndpointOutcome}
    {probe : String → Option ProbeResponse} {email projectID e : String}
    {rest : List String} {last : Option String} {msg fe : String}
    (hcall : callQuotaEndpoint (world e) email projectID = .error msg)
    (hu : matchesUnauthorized msg = false)
    (hf : matchesForbidden msg = true)
    (hfb : fetchQuotaFromHeaders probe = .error fe) :
    fetchLoop world probe email projectID (e :: rest) last =
      ({ email := email, projectID := projectID, status := "inactive"
         modelQuotas := []
         error := "Access forbidden and fallback failed: " ++ fe },
       .quotaCall e :: modelsToCheck.map .probeCall) := by
  unfold fetchLoop
  rw [hcall]
  simp [hu, hf, hfb]

/-- Loop step: any other error not containing `"404"` breaks the loop and
is surfaced as the terminal error. -/
theorem fetchLoop_cons_break {world : String → EndpointOutcome}
    {probe : String → Option ProbeResponse} {email projectID e : String}
    {rest : List String} {last : Option String} {msg : String}
    (hcall : callQuotaEndpoint (world e) email projectID = .error msg)
    (hu : matchesUnauthorized msg = false)
    (hf : matchesForbidden msg = false)
    (h404 : goContains msg "404" = false) :
    fetchLoop world probe email projectID (e :: rest) last =
      (errorResult email projectID (some msg), [.quotaCall e]) := by
  unfold fetchLoop
  rw [hcall]
  simp [hu, hf, h404]

/-- Loop step: any other error containing `"404"` advances to the next
candidate, recording the message as the last observed error. -/
theorem fetchLoop_cons_advance {world : String → EndpointOutcome}
    {probe : String → Option ProbeResponse} {email projectID e : String}
    {rest : List String} {last : Option String} {msg : String}
    (hcall : callQuotaEndpoint (world e) email projectID = .error msg)
    (hu : matchesUnauthorized msg = false)
    (hf : matchesForbidden msg = false)
    (h404 : goContains msg "404" = true) :
    fetchLoop world probe email projectID (e :: rest) last =
      ((fetchLoop world probe email projectID rest (some msg)).1,
       .quotaCall e :: (fetchLoop world probe email projectID rest (some msg)).2) := by
  conv_lhs => unfold fetchLoop
  rw [hcall]
  simp [hu, hf, h404]

/-- Whether a classified endpoint result makes the loop move on to the
next candidate (source line 339: an error whose text contains `"404"`,
after the 401 and 403 substring tests both failed). -/
def advancesTo404 (res : Except String AccountQuota) : Bool :=
  match res with
  | .ok _ => false
  | .error msg =>
    !matchesUnauthorized msg && !matchesForbidden msg && goContains msg "404"

/-- Whether an endpoint outcome is a received HTTP 404 (`NotFound`). -/
def isNotFoundOutcome (out : EndpointOutcome) : Bool :=
  match out with
  | .response r => r.statusCode = 404
  | .transportError _ => false

/-- After any run of advancing candidates, an error matching the 401 test
is terminal: the loop returns the re-login `inactive` result having called
exactly the advancing candidates and the offending one. -/
theorem fetchLoop_advances_then_unauth {world : String → EndpointOutcome}
    {probe : String → Option ProbeResponse} {email projectID : String}
    {pre : List String} {e : String} {rest : List String} {msg : String}
    (hadv : ∀ e' ∈ pre,
      advancesTo404 (callQuotaEndpoint (world e') email projectID) = true)
    (hcall : callQuotaEndpoint (world e) email projectID = .error msg)
    (hm : matchesUnauthorized msg = true) :
    ∀ last, fetchLoop world probe email projectID (pre ++ e :: rest) last =
      (inactiveReauth email projectID, (pre ++ [e]).map NetCall.quotaCall) := by
  induction pre with
  | nil => exact fun last => fetchLoop_cons_unauth hcall hm
  | cons p pre' ih =>
    intro last
    have hp := hadv p (List.mem_cons_self p pre')
    cases hc : callQuotaEndpoint (world p) email projectID with
    | ok q => rw [hc] at hp; simp [advancesTo404] at hp
    | error msgp =>
      rw [hc] at hp
      simp only [advancesTo404, Bool.and_eq_true, Bool.not_eq_true'] at hp
      obtain ⟨⟨hu, hf⟩, h404⟩ := hp
      have ihx := ih (fun e' he' => hadv e' (List.mem_cons_of_mem p he')) (some msgp)
      rw [List.cons_append, fetchLoop_cons_advance hc hu hf h404, ihx]
      simp

/-- When every candidate in a non-empty list answers with the `NotFound`
error, the loop walks the whole list and ends in the terminal `error`
result carrying the (identical) last observed message. -/
theorem fetchLoop_all_notfound {world : String → EndpointOutcome}
    {probe : String → Option ProbeResponse} {email projectID : String} :
    ∀ l : List String, l ≠ [] →
    (∀ e ∈ l, callQuotaEndpoint (world e) email projectID =
      .error "404: endpoint not found") →
    ∀ last, fetchLoop world probe email projectID l last =
      (errorResult email projectID (some "404: endpoint not found"),
       l.map NetCall.quotaCall) := by
  intro l
  induction l with
  | nil => intro h; exact absurd rfl h
  | cons e rest ih =>
    intro _ hall last
    have hce := hall e (List.mem_cons_self e rest)
    cases rest with
    | nil =>
      rw [fetchLoop_cons_advance hce (by decide) (by decide) (by decide)]
      rfl
    | cons e2 rest2 =>
      rw [fetchLoop_cons_advance hce (by decide) (by decide) (by decide),
        ih (by simp) (fun x hx => hall x (List.mem_cons_of_mem e hx))
          (some "404: endpoint not found")]
      simp

/-- A received 404 is classified as the `NotFound` error string. -/
theorem callQuotaEndpoint_notfound {out : EndpointOutcome}
    {email projectID : String} (h : isNotFoundOutcome out = true) :
    callQuotaEndpoint out email projectID = .error "404: endpoint not found" := by
  cases out with
  | transportError m => simp [isNotFoundOutcome] at h
  | response r =>
    simp only [isNotFoundOutcome, decide_eq_true_eq] at h
    have h401 : r.statusCode ≠ 401 := by omega
    have h403 : r.statusCode ≠ 403 := by omega
    simp [callQuotaEndpoint, h, h401, h403]

/-- Three mutually-exclusive `countP`s over the valid statuses partition the
list. -/
theorem countP_status_partition (l : List AccountQuota)
    (h : ∀ a ∈ l, validStatus a.status) :
    l.countP (fun a => a.status = "active") +
      l.countP (fun a => a.status = "inactive") +
      l.countP (fun a => a.status = "error") = l.length := by
  induction l with
  | nil => rfl
  | cons x xs ih =>
    have hx := h x (List.mem_cons_self x xs)
    have ihx := ih (fun a ha => h a (List.mem_cons_of_mem x ha))
    rcases hx with hx | hx | hx <;>
      simp [List.countP_cons, hx, ihx] <;> omega

/-! ## Claim theorems -/

/-- Claim C2: if the candidate endpoint the fallback loop reaches (after any run
of advancing candidates) returns HTTP 401, the resolution immediately
produces a terminal Account Quota with status `"inactive"` and the
re-authentication error, and the network trace records exactly the
endpoints called so far — no later candidate and no header-probe call. -/
theorem C2_unauthorized_short_circuit
    (world : String → EndpointOutcome) (probe : String → Option ProbeResponse)
    (email projectID : String) (pre : List String) (e : String)
    (rest : List String) (r : EndpointResponse)
    (hsplit : endpoints = pre ++ e :: rest)
    (hadv : ∀ e' ∈ pre,
      advancesTo404 (callQuotaEndpoint (world e') email projectID) = true)
    (hw : world e = .response r) (hr : r.statusCode = 401) :
    fetchQuotaForAccount world probe email projectID =
      (inactiveReauth email projectID, (pre ++ [e]).map NetCall.quotaCall) ∧
    (inactiveReauth email projectID).status = "inactive" ∧
    (inactiveReauth email projectID).error =
      "Access token expired. Please re-login: CLIProxyAPI -antigravity-login" := by
  have hcall : callQuotaEndpoint (world e) email projectID =
      .error "unauthorized: access token expired" := by
    rw [hw]; simp [callQuotaEndpoint, hr]
  refine ⟨?_, rfl, rfl⟩
  unfold fetchQuotaForAccount
  rw [hsplit]
  exact fetchLoop_advances_then_unauth hadv hcall (by decide) none

/-- Claim C2 witness: first candidate 404, second candidate 401; the result is
the re-login `inactive` quota and only the first two candidates are
called. -/
theorem C2_witness :
    fetchQuotaForAccount
      (fun e =>
        if e = "https://daily-cloudcode-pa.sandbox.googleapis.com/v1internal:fetchAvailableModels"
        then .response { statusCode := 401, body := "", arrayModels := none, mapModels := none }
        else .response { statusCode := 404, body := "", arrayModels := none, mapModels := none })
      (fun _ => none) "user@example.com" "proj-1" =
      (inactiveReauth "user@example.com" "proj-1",
       [.quotaCall "https://daily-cloudcode-pa.googleapis.com/v1internal:fetchAvailableModels",
        .quotaCall "https://daily-cloudcode-pa.sandbox.googleapis.com/v1internal:fetchAvailableModels"]) :=
  (C2_unauthorized_short_circuit _ _ "user@example.com" "proj-1"
    ["https://daily-cloudcode-pa.googleapis.com/v1internal:fetchAvailableModels"]
    "https://daily-cloudcode-pa.sandbox.googleapis.com/v1internal:fetchAvailableModels"
    ["https://cloudcode-pa.googleapis.com/v1internal:fetchAvailableModels"]
    { statusCode := 401, body := "", arrayModels := none, mapModels := none }
    rfl (by decide) (by decide) rfl).1

/-- Claim C3: in every report the three status counts sum to the total, the
total is the number of account entries, and every entry carries one of the
three statuses. -/
theorem C3_report_counts (parse : String → Option Int) (now : Int)
    (worlds : SelectedAuth → World) (auths : List AuthRecord) :
    (∀ a ∈ (getAntigravityQuota parse now worlds auths).accounts,
      a.status = "active" ∨ a.status = "inactive" ∨ a.status = "error") ∧
    (getAntigravityQuota parse now worlds auths).activeAccounts +
        (getAntigravityQuota parse now worlds auths).inactiveAccounts +
        (getAntigravityQuota parse now worlds auths).errorAccounts =
      (getAntigravityQuota parse now worlds auths).totalAccounts ∧
    (getAntigravityQuota parse now worlds auths).totalAccounts =
      (getAntigravityQuota parse now worlds auths).accounts.length := by
  have hval : ∀ a ∈ (getAntigravityQuota parse now worlds auths).accounts,
      validStatus a.status := by
    intro a ha
    simp only [getAntigravityQuota, tallyReport, List.mem_map] at ha
    obtain ⟨s, hs, rfl⟩ := ha
    exact accountTask_validStatus _ _
  exact ⟨hval, countP_status_partition _ hval, rfl⟩

/-- Claim C1 counterexample: every endpoint answers 403 and every probe returns a
response without rate-limit headers.  The terminal Account Quota has status
`"inactive"`, not `"error"` as the claim states, and its message is the
fixed text "Access forbidden and fallback failed: no quota information
extracted from headers" (the original forbidden body is dropped). -/
theorem C1_counterexample :
    (fetchQuotaForAccount
        (fun _ => .response
          { statusCode := 403, body := "PERMISSION_DENIED: caller lacks permission"
            arrayModels := none, mapModels := none })
        (fun _ => some { statusCode := 200, limitHeader := "", remainingHeader := "", resetHeader := "" })
        "user@example.com" "proj-1").1.status = "inactive" ∧
    ¬ (fetchQuotaForAccount
        (fun _ => .response
          { statusCode := 403, body := "PERMISSION_DENIED: caller lacks permission"
            arrayModels := none, mapModels := none })
        (fun _ => some { statusCode := 200, limitHeader := "", remainingHeader := "", resetHeader := "" })
        "user@example.com" "proj-1").1.status = "error" ∧
    (fetchQuotaForAccount
        (fun _ => .response
          { statusCode := 403, body := "PERMISSION_DENIED: caller lacks permission"
            arrayModels := none, mapModels := none })
        (fun _ => some { statusCode := 200, limitHeader := "", remainingHeader := "", resetHeader := "" })
        "user@example.com" "proj-1").1.error =
      "Access forbidden and fallback failed: no quota information extracted from headers" := by
  decide

/-- Claim C1 amended: when the endpoint the loop reaches returns Forbidden (403,
with a body that does not trip the earlier 401 substring test) and the
header probe yields no model data, the terminal Account Quota has status
`"inactive"` (not `"error"`), and its message is the forbidden phrase
joined with the fallback failure text — the original forbidden body is not
included. -/
theorem C1_forbidden_fallback_empty
    (world : String → EndpointOutcome) (probe : String → Option ProbeResponse)
    (email projectID e : String) (rest : List String) (last : Option String)
    (r : EndpointResponse)
    (hw : world e = .response r) (hs : r.statusCode = 403)
    (hu : matchesUnauthorized ("forbidden: " ++ r.body) = false)
    (hnone : ∀ m ∈ modelsToCheck, extractedQuota probe m = none) :
    fetchLoop world probe email projectID (e :: rest) last =
      ({ email := email, projectID := projectID, status := "inactive"
         modelQuotas := []
         error := "Access forbidden and fallback failed: no quota information extracted from headers" },
       .quotaCall e :: modelsToCheck.map .probeCall) := by
  have hcall : callQuotaEndpoint (world e) email projectID =
      .error ("forbidden: " ++ r.body) := by
    rw [hw]; simp [callQuotaEndpoint, hs]
  have hforb : matchesForbidden ("forbidden: " ++ r.body) = true := by
    unfold matchesForbidden
    rw [goContains_append_left r.body (by decide)]
    rfl
  have hempty : modelsToCheck.filterMap (extractedQuota probe) = [] :=
    List.filterMap_eq_nil_iff.2 hnone
  have hfb : fetchQuotaFromHeaders probe =
      .error "no quota information extracted from headers" := by
    unfold fetchQuotaFromHeaders
    rw [hempty]
    rfl
  exact fetchLoop_cons_forbidden_err hcall hu hforb hfb

/-- Claim C1 amended, witnessed at the first candidate endpoint with a concrete
403 body and header-less probe responses. -/
theorem C1_forbidden_fallback_empty_witness :
    fetchLoop
      (fun _ => .response
        { statusCode := 403, body := "PERMISSION_DENIED", arrayModels := none, mapModels := none })
      (fun _ => some { statusCode := 200, limitHeader := "", remainingHeader := "", resetHeader := "" })
      "user@example.com" "proj-1"
      ("https://daily-cloudcode-pa.googleapis.com/v1internal:fetchAvailableModels" ::
        ["https://daily-cloudcode-pa.sandbox.googleapis.com/v1internal:fetchAvailableModels",
         "https://cloudcode-pa.googleapis.com/v1internal:fetchAvailableModels"]) none =
      ({ email := "user@example.com", projectID := "proj-1", status := "inactive"
         modelQuotas := []
         error := "Access forbidden and fallback failed: no quota information extracted from headers" },
       .quotaCall "https://daily-cloudcode-pa.googleapis.com/v1internal:fetchAvailableModels" ::
        modelsToCheck.map .probeCall) :=
  C1_forbidden_fallback_empty _ _ "user@example.com" "proj-1" _ _ none
    { statusCode := 403, body := "PERMISSION_DENIED", arrayModels := none, mapModels := none }
    rfl rfl (by decide) (by decide)

/-- Claim C4: a Forbidden answer from the endpoint the loop reaches, followed by
a header probe in which exactly two of the probed models yield usable
rate-limit data, gives status `"active"` with exactly two model-quota
entries and an empty error field (the forbidden body is discarded). -/
theorem C4_forbidden_two_probe_models
    (world : String → EndpointOutcome) (probe : String → Option ProbeResponse)
    (email projectID e : String) (rest : List String) (last : Option String)
    (r : EndpointResponse)
    (hw : world e = .response r) (hs : r.statusCode = 403)
    (hu : matchesUnauthorized ("forbidden: " ++ r.body) = false)
    (hcount : modelsToCheck.countP (fun m => (extractedQuota probe m).isSome) = 2) :
    (fetchLoop world probe email projectID (e :: rest) last).1.status = "active" ∧
    (fetchLoop world probe email projectID (e :: rest) last).1.modelQuotas.length = 2 ∧
    (fetchLoop world probe email projectID (e :: rest) last).1.error = "" := by
  have hcall : callQuotaEndpoint (world e) email projectID =
      .error ("forbidden: " ++ r.body) := by
    rw [hw]; simp [callQuotaEndpoint, hs]
  have hforb : matchesForbidden ("forbidden: " ++ r.body) = true := by
    unfold matchesForbidden
    rw [goContains_append_left r.body (by decide)]
    rfl
  have hlen : (modelsToCheck.filterMap (extractedQuota probe)).length = 2 := by
    rw [length_filterMap_eq_countP]
    exact hcount
  have hfb : fetchQuotaFromHeaders probe =
      .ok (modelsToCheck.filterMap (extractedQuota probe)) := by
    unfold fetchQuotaFromHeaders
    have : (modelsToCheck.filterMap (extractedQuota probe)).isEmpty = false := by
      cases hq : modelsToCheck.filterMap (extractedQuota probe) with
      | nil => rw [hq] at hlen; simp at hlen
      | cons x xs => rfl
    simp [this]
  rw [fetchLoop_cons_forbidden_ok hcall hu hforb hfb]
  exact ⟨rfl, hlen, rfl⟩

/-- Claim C4 witness: 403 at the first candidate, probes for `gemini-2.5-pro`
and `gemini-2.5-flash` carry parseable rate-limit headers, the other six
probed models carry none. -/
theorem C4_forbidden_two_probe_models_witness :
    (fetchLoop
      (fun _ => .response
        { statusCode := 403, body := "no permission for fetchAvailableModels"
          arrayModels := none, mapModels := none })
      (fun m =>
        if m = "gemini-2.5-pro" then
          some { statusCode := 429, limitHeader := "100", remainingHeader := "25", resetHeader := "soon" }
        else if m = "gemini-2.5-flash" then
          some { statusCode := 403, limitHeader := "50", remainingHeader := "10", resetHeader := "" }
        else
          some { statusCode := 200, limitHeader := "", remainingHeader := "", resetHeader := "" })
      "user@example.com" "proj-1"
      ("https://daily-cloudcode-pa.googleapis.com/v1internal:fetchAvailableModels" ::
        ["https://daily-cloudcode-pa.sandbox.googleapis.com/v1internal:fetchAvailableModels",
         "https://cloudcode-pa.googleapis.com/v1internal:fetchAvailableModels"]) none).1.status = "active" ∧
    (fetchLoop
      (fun _ => .response
        { statusCode := 403, body := "no permission for fetchAvailableModels"
          arrayModels := none, mapModels := none })
      (fun m =>
        if m = "gemini-2.5-pro" then
          some { statusCode := 429, limitHeader := "100", remainingHeader := "25", resetHeader := "soon" }
        else if m = "gemini-2.5-flash" then
          some { statusCode := 403, limitHeader := "50", remainingHeader := "10", resetHeader := "" }
        else
          some { statusCode := 200, limitHeader := "", remainingHeader := "", resetHeader := "" })
      "user@example.com" "proj-1"
      ("https://daily-cloudcode-pa.googleapis.com/v1internal:fetchAvailableModels" ::
        ["https://daily-cloudcode-pa.sandbox.googleapis.com/v1internal:fetchAvailableModels",
         "https://cloudcode-pa.googleapis.com/v1internal:fetchAvailableModels"]) none).1.modelQuotas.length = 2 ∧
    (fetchLoop
      (fun _ => .response
        { statusCode := 403, body := "no permission for fetchAvailableModels"
          arrayModels := none, mapModels := none })
      (fun m =>
        if m = "gemini-2.5-pro" then
          some { statusCode := 429, limitHeader := "100", remainingHeader := "25", resetHeader := "soon" }
        else if m = "gemini-2.5-flash" then
          some { statusCode := 403, limitHeader := "50", remainingHeader := "10", resetHeader := "" }
        else
          some { statusCode := 200, limitHeader := "", remainingHeader := "", resetHeader := "" })
      "user@example.com" "proj-1"
      ("https://daily-cloudcode-pa.googleapis.com/v1internal:fetchAvailableModels" ::
        ["https://daily-cloudcode-pa.sandbox.googleapis.com/v1internal:fetchAvailableModels",
         "https://cloudcode-pa.googleapis.com/v1internal:fetchAvailableModels"]) none).1.error = "" :=
  C4_forbidden_two_probe_models _ _ "user@example.com" "proj-1" _ _ none
    { statusCode := 403, body := "no permission for fetchAvailableModels"
      arrayModels := none, mapModels := none }
    rfl rfl (by decide) (by decide)

/-- Claim C5 counterexample: the first candidate answers HTTP 500 with a body
that happens to contain "404".  That outcome is not `NotFound`, yet the
loop advances and calls the second candidate — so advancing does not
happen "exactly on a NotFound result". -/
theorem C5_counterexample :
    isNotFoundOutcome
      (.response { statusCode := 500, body := "upstream resource 404 missing"
                   arrayModels := none, mapModels := none }) = false ∧
    (fetchQuotaForAccount
      (fun e =>
        if e = "https://daily-cloudcode-pa.googleapis.com/v1internal:fetchAvailableModels"
        then .response { statusCode := 500, body := "upstream resource 404 missing"
                         arrayModels := none, mapModels := none }
        else .response { statusCode := 200, body := ""
                         arrayModels := some [{ model := "gemini-2.5-pro", rpmLimit := 100,
                                                remainingRpm := 25, resetTimeStamp := "" }]
                         mapModels := none })
      (fun _ => none) "user@example.com" "proj-1").2 =
      [.quotaCall "https://daily-cloudcode-pa.googleapis.com/v1internal:fetchAvailableModels",
       .quotaCall "https://daily-cloudcode-pa.sandbox.googleapis.com/v1internal:fetchAvailableModels"] := by
  decide

/-- Claim C5 amended: the loop advances to the next candidate exactly when the
classified error text contains the substring `"404"` (which every
`NotFound` result does, but which other errors may too, as the
counterexample shows); after the earlier substring tests fail, any other
error breaks the loop.  If all three candidates return `NotFound`, the
terminal Account Quota has status `"error"` and its error is the last
observed message, `"404: endpoint not found"`. -/
theorem C5_advance_on_404_substring :
    (∀ (world : String → EndpointOutcome) (probe : String → Option ProbeResponse)
        (email projectID e : String) (rest : List String) (last : Option String)
        (msg : String),
      callQuotaEndpoint (world e) email projectID = .error msg →
      matchesUnauthorized msg = false → matchesForbidden msg = false →
      (goContains msg "404" = true →
        fetchLoop world probe email projectID (e :: rest) last =
          ((fetchLoop world probe email projectID rest (some msg)).1,
           .quotaCall e :: (fetchLoop world probe email projectID rest (some msg)).2)) ∧
      (goContains msg "404" = false →
        fetchLoop world probe email projectID (e :: rest) last =
          (errorResult email projectID (some msg), [.quotaCall e]))) ∧
    (∀ (world : String → EndpointOutcome) (probe : String → Option ProbeResponse)
        (email projectID : String),
      (∀ e ∈ endpoints, isNotFoundOutcome (world e) = true) →
      fetchQuotaForAccount world probe email projectID =
        (errorResult email projectID (some "404: endpoint not found"),
         endpoints.map NetCall.quotaCall) ∧
      (errorResult email projectID (some "404: endpoint not found")).status = "error" ∧
      (errorResult email projectID (some "404: endpoint not found")).error =
        "404: endpoint not found") := by
  constructor
  · intro world probe email projectID e rest last msg hcall hu hf
    exact ⟨fun h404 => fetchLoop_cons_advance hcall hu hf h404,
           fun h404 => fetchLoop_cons_break hcall hu hf h404⟩
  · intro world probe email projectID hall
    refine ⟨?_, rfl, rfl⟩
    unfold fetchQuotaForAccount
    exact fetchLoop_all_notfound endpoints (by decide)
      (fun e he => callQuotaEndpoint_notfound (hall e he)) none

/-- Claim C5 amended, witnessed with every candidate answering HTTP 404. -/
theorem C5_advance_on_404_substring_witness :
    fetchQuotaForAccount
      (fun _ => .response { statusCode := 404, body := "", arrayModels := none, mapModels := none })
      (fun _ => none) "user@example.com" "proj-1" =
      (errorResult "user@example.com" "proj-1" (some "404: endpoint not found"),
       endpoints.map NetCall.quotaCall) :=
  (C5_advance_on_404_substring.2 _ _ "user@example.com" "proj-1" (by decide)).1

/-- Claim C6: an antigravity credential with an access token whose stored expiry
marker parses to an instant in the past and whose refresh token is absent
is selected with `expired = true`, and its resolution task returns an
`inactive` Account Quota with a non-empty error, performing zero network
calls (empty trace: no quota endpoint, no probe, no refresh). -/
theorem C6_expired_no_refresh (parse : String → Option Int) (now : Int)
    (w : World) (rec : AuthRecord) (s : String) (t : Int)
    (hprov : rec.provider = "antigravity" ∨
      metaStr rec.metadata "type" = some "antigravity")
    (htok : (metaStr rec.metadata "access_token").getD "" ≠ "")
    (hexp : (metaStr rec.metadata "expired").getD "" = s)
    (hs : s ≠ "")
    (hparse : parse s = some t)
    (hpast : t < now)
    (hrt : (metaStr rec.metadata "refresh_token").getD "" = "") :
    (toSelected parse now rec).isSome = true ∧
    ∀ sel, toSelected parse now rec = some sel →
      sel.expired = true ∧ sel.refreshToken = "" ∧
      accountTask w sel =
        ({ email := sel.email, projectID := sel.projectID, status := "inactive"
           modelQuotas := []
           error := "Access token expired and no refresh token available" }, []) ∧
      ("Access token expired and no refresh token available" : String) ≠ "" := by
  have hexpired :
      isExpiredOf parse now ((metaStr rec.metadata "expired").getD "") = true := by
    rw [hexp]
    unfold isExpiredOf
    rw [if_neg hs, hparse]
    exact decide_eq_true hpast
  have hsel : toSelected parse now rec = some
      { email := (metaStr rec.metadata "email").getD ""
        projectID := (metaStr rec.metadata "project_id").getD ""
        accessToken := (metaStr rec.metadata "access_token").getD ""
        refreshToken := (metaStr rec.metadata "refresh_token").getD ""
        authID := rec.id
        expired := isExpiredOf parse now ((metaStr rec.metadata "expired").getD "") } := by
    simp only [toSelected]
    rw [if_neg (not_not_intro hprov), if_neg htok]
  constructor
  · rw [hsel]; rfl
  · intro sel hselEq
    rw [hsel] at hselEq
    injection hselEq with h2
    subst h2
    refine ⟨hexpired, hrt, ?_, by decide⟩
    unfold accountTask
    rw [if_neg (fun hc => hc.2 hrt), if_pos hexpired]

/-- Claim C6 witness: a concrete credential whose expiry string parses to 100
against `now = 200`, with no refresh token stored. -/
theorem C6_expired_no_refresh_witness :
    toSelected (fun str => if str = "2020-01-01T00:00:00Z" then some 100 else none)
        200
        { id := "auth-1", provider := "antigravity"
          metadata := some [("email", .str "u@x.com"), ("access_token", .str "tok"),
                            ("expired", .str "2020-01-01T00:00:00Z")] } =
      some { email := "u@x.com", projectID := "", accessToken := "tok"
             refreshToken := "", authID := "auth-1", expired := true } ∧
    accountTask
      { refresh := fun _ => .err "unused", endpoint := fun _ => .transportError "unused"
        probe := fun _ => none }
      { email := "u@x.com", projectID := "", accessToken := "tok"
        refreshToken := "", authID := "auth-1", expired := true } =
      ({ email := "u@x.com", projectID := "", status := "inactive"
         modelQuotas := []
         error := "Access token expired and no refresh token available" }, []) :=
  ⟨by decide,
   ((C6_expired_no_refresh
      (fun str => if str = "2020-01-01T00:00:00Z" then some 100 else none) 200
      { refresh := fun _ => .err "unused", endpoint := fun _ => .transportError "unused"
        probe := fun _ => none }
      { id := "auth-1", provider := "antigravity"
        metadata := some [("email", .str "u@x.com"), ("access_token", .str "tok"),
                          ("expired", .str "2020-01-01T00:00:00Z")] }
      "2020-01-01T00:00:00Z" 100
      (by decide) (by decide) (by decide) (by decide) (by decide) (by decide)
      (by decide)).2
     { email := "u@x.com", projectID := "", accessToken := "tok"
       refreshToken := "", authID := "auth-1", expired := true }
     (by decide)).2.2.1⟩

/-- Claim C7: a credential record with an empty (or absent, or non-string)
access token is excluded from resolution entirely — the report computed
with it present equals the report computed without it, so it contributes
no entry to `accounts` and to no count. -/
theorem C7_empty_token_excluded (parse : String → Option Int) (now : Int)
    (worlds : SelectedAuth → World) (pre post : List AuthRecord)
    (a : AuthRecord)
    (h : (metaStr a.metadata "access_token").getD "" = "") :
    getAntigravityQuota parse now worlds (pre ++ a :: post) =
      getAntigravityQuota parse now worlds (pre ++ post) := by
  have htos : toSelected parse now a = none := by
    by_cases hA : a.provider = "antigravity" ∨
        metaStr a.metadata "type" = some "antigravity"
    · simp only [toSelected]
      rw [if_neg (not_not_intro hA), if_pos h]
    · simp only [toSelected]
      rw [if_pos hA]
  simp only [getAntigravityQuota, selectAntigravity, List.filterMap_append,
    List.filterMap_cons, htos]

/-- Claim C7 witness: an antigravity record without an access token yields the
same (empty) report as the empty credential list. -/
theorem C7_empty_token_excluded_witness :
    getAntigravityQuota (fun _ => none) 0
      (fun _ =>
        { refresh := fun _ => .err "unused", endpoint := fun _ => .transportError "unused"
          probe := fun _ => none })
      [{ id := "auth-1", provider := "antigravity"
         metadata := some [("email", .str "a@b.c")] }] =
    getAntigravityQuota (fun _ => none) 0
      (fun _ =>
        { refresh := fun _ => .err "unused", endpoint := fun _ => .transportError "unused"
          probe := fun _ => none })
      [] :=
  C7_empty_token_excluded (fun _ => none) 0 _ [] []
    { id := "auth-1", provider := "antigravity"
      metadata := some [("email", .str "a@b.c")] }
    (by decide)

/-- Claim C8: a 200 response whose array-format decode yields nothing and whose
map-format decode yields at least one model is built from the map format;
a model with present quota-info and present remaining-fraction contributes
`remaining_percent = fraction * 100`, a model with absent quota-info is
skipped; at fraction `2/5` the percentage is exactly `40`. -/
theorem C8_formatB_fraction_times_100 :
    (∀ (r : EndpointResponse) (email projectID : String)
        (entries : List (String × Option MapQuotaInfo)),
      r.statusCode = 200 →
      (r.arrayModels = none ∨ r.arrayModels = some []) →
      r.mapModels = some entries → 0 < entries.length →
      callQuotaEndpoint (.response r) email projectID =
        .ok (buildQuotasFromMap email projectID entries)) ∧
    (∀ (email projectID : String) (pre post : List (String × Option MapQuotaInfo))
        (name : String) (f : ℚ) (rt : Option String),
      (buildQuotasFromMap email projectID
          (pre ++ (name, some { remainingFraction := some f, resetTime := rt }) :: post)).modelQuotas =
        (buildQuotasFromMap email projectID pre).modelQuotas ++
          { model := name, displayName := getDisplayName name
            remainingPercent := f * 100, resetTime := rt.getD "" } ::
          (buildQuotasFromMap email projectID post).modelQuotas) ∧
    (∀ (email projectID : String) (pre post : List (String × Option MapQuotaInfo))
        (name : String),
      buildQuotasFromMap email projectID (pre ++ (name, none) :: post) =
        buildQuotasFromMap email projectID (pre ++ post)) ∧
    (∀ (email projectID name : String) (rt : Option String),
      (buildQuotasFromMap email projectID
          [(name, some { remainingFraction := some ((2 : ℚ)/5), resetTime := rt })]).modelQuotas =
        [{ model := name, displayName := getDisplayName name
           remainingPercent := 40, resetTime := rt.getD "" }]) := by
  refine ⟨?_, ?_, ?_, ?_⟩
  · intro r email projectID entries h200 harr hmap hlen
    rcases harr with harr | harr <;>
      simp [callQuotaEndpoint, parseQuotaBody, h200, harr, hmap, hlen]
  · intro email projectID pre post name f rt
    simp [buildQuotasFromMap, List.filterMap_append, List.filterMap_cons]
  · intro email projectID pre post name
    simp [buildQuotasFromMap, List.filterMap_append, List.filterMap_cons]
  · intro email projectID name rt
    simp [buildQuotasFromMap, List.filterMap_cons]
    norm_num

/-- Claim C8 witness: a 200 response carrying only the map format with one model
at `remainingFraction = 2/5` routes through the map builder and produces
`remaining_percent = 40`. -/
theorem C8_formatB_fraction_times_100_witness :
    callQuotaEndpoint
      (.response { statusCode := 200, body := ""
                   arrayModels := none
                   mapModels := some [("gemini-2.5-pro",
                     some { remainingFraction := some ((2 : ℚ)/5), resetTime := some "soon" })] })
      "user@example.com" "proj-1" =
      .ok (buildQuotasFromMap "user@example.com" "proj-1"
        [("gemini-2.5-pro",
          some { remainingFraction := some ((2 : ℚ)/5), resetTime := some "soon" })]) ∧
    (buildQuotasFromMap "user@example.com" "proj-1"
        [("gemini-2.5-pro",
          some { remainingFraction := some ((2 : ℚ)/5), resetTime := some "soon" })]).modelQuotas =
      [{ model := "gemini-2.5-pro", displayName := getDisplayName "gemini-2.5-pro"
         remainingPercent := 40, resetTime := "soon" }] :=
  ⟨C8_formatB_fraction_times_100.1 _ "user@example.com" "proj-1" _
      rfl (Or.inl rfl) rfl (by decide),
   C8_formatB_fraction_times_100.2.2.2 "user@example.com" "proj-1"
      "gemini-2.5-pro" (some "soon")⟩

/-- Claim C9: classification in the fallback loop is substring matching on the
error text, with the unauthorized test before the forbidden test: any
endpoint error containing "unauthorized" or "access token expired" is
terminal `inactive` re-login with no probe call — including a 403 whose
body contains those substrings, since the forbidden error embeds the
body. -/
theorem C9_unauthorized_substring_precedence :
    (∀ (world : String → EndpointOutcome) (probe : String → Option ProbeResponse)
        (email projectID e : String) (rest : List String) (last : Option String)
        (msg : String),
      callQuotaEndpoint (world e) email projectID = .error msg →
      (goContains msg "unauthorized" = true ∨
        goContains msg "access token expired" = true) →
      fetchLoop world probe email projectID (e :: rest) last =
        (inactiveReauth email projectID, [.quotaCall e])) ∧
    (∀ (world : String → EndpointOutcome) (probe : String → Option ProbeResponse)
        (email projectID e : String) (rest : List String) (last : Option String)
        (r : EndpointResponse),
      world e = .response r → r.statusCode = 403 →
      (goContains r.body "unauthorized" = true ∨
        goContains r.body "access token expired" = true) →
      callQuotaEndpoint (world e) email projectID =
        .error ("forbidden: " ++ r.body) ∧
      fetchLoop world probe email projectID (e :: rest) last =
        (inactiveReauth email projectID, [.quotaCall e])) := by
  have hmain : ∀ (world : String → EndpointOutcome)
      (probe : String → Option ProbeResponse)
      (email projectID e : String) (rest : List String) (last : Option String)
      (msg : String),
      callQuotaEndpoint (world e) email projectID = .error msg →
      (goContains msg "unauthorized" = true ∨
        goContains msg "access token expired" = true) →
      fetchLoop world probe email projectID (e :: rest) last =
        (inactiveReauth email projectID, [.quotaCall e]) := by
    intro world probe email projectID e rest last msg hcall hsub
    have hm : matchesUnauthorized msg = true := by
      unfold matchesUnauthorized
      rcases hsub with hsub | hsub <;> simp [hsub]
    exact fetchLoop_cons_unauth hcall hm
  refine ⟨hmain, ?_⟩
  intro world probe email projectID e rest last r hw hs hsub
  have hcall : callQuotaEndpoint (world e) email projectID =
      .error ("forbidden: " ++ r.body) := by
    rw [hw]; simp [callQuotaEndpoint, hs]
  refine ⟨hcall, hmain world probe email projectID e rest last _ hcall ?_⟩
  rcases hsub with hsub | hsub
  · exact Or.inl (goContains_append_right "forbidden: " hsub)
  · exact Or.inr (goContains_append_right "forbidden: " hsub)

/-- Claim C9 witness: a 403 whose body contains "unauthorized" short-circuits to
the re-login `inactive` result with a single endpoint call and no probe. -/
theorem C9_unauthorized_substring_precedence_witness :
    fetchLoop
      (fun _ => .response { statusCode := 403, body := "user unauthorized in this region"
                            arrayModels := none, mapModels := none })
      (fun _ => some { statusCode := 200, limitHeader := "100", remainingHeader := "50", resetHeader := "" })
      "user@example.com" "proj-1"
      ("https://daily-cloudcode-pa.googleapis.com/v1internal:fetchAvailableModels" ::
        ["https://daily-cloudcode-pa.sandbox.googleapis.com/v1internal:fetchAvailableModels",
         "https://cloudcode-pa.googleapis.com/v1internal:fetchAvailableModels"]) none =
      (inactiveReauth "user@example.com" "proj-1",
       [.quotaCall "https://daily-cloudcode-pa.googleapis.com/v1internal:fetchAvailableModels"]) :=
  (C9_unauthorized_substring_precedence.2 _ _ "user@example.com" "proj-1" _ _ none
    { statusCode := 403, body := "user unauthorized in this region"
      arrayModels := none, mapModels := none }
    rfl rfl (Or.inl (by decide))).2

/-- Claim C10: the header probe never inspects the HTTP status code — two
responses differing only in status extract identically; a response with a
parseable nonzero limit header and parseable remaining header (of any
status) yields a Model Quota with `remaining/limit*100`; and a missing
header, an unparseable or zero limit, or an unparseable remaining value
each skip the model with `.ok none`, not an error. -/
theorem C10_probe_ignores_status :
    (∀ (r1 r2 : ProbeResponse) (m : String),
      r1.limitHeader = r2.limitHeader → r1.remainingHeader = r2.remainingHeader →
      r1.resetHeader = r2.resetHeader →
      extractQuotaForModel (some r1) m = extractQuotaForModel (some r2) m) ∧
    (∀ (status : Nat) (lh rh rsh m : String) (limit remaining : Int),
      sscanfInt lh = some limit → limit ≠ 0 → sscanfInt rh = some remaining →
      extractQuotaForModel
          (some { statusCode := status, limitHeader := lh, remainingHeader := rh, resetHeader := rsh }) m =
        .ok (some { model := m, displayName := getDisplayName m
                    remainingPercent := (remaining : ℚ) / (limit : ℚ) * 100
                    resetTime := rsh })) ∧
    (∀ (status : Nat) (lh rh rsh m : String), lh = "" ∨ rh = "" →
      extractQuotaForModel
          (some { statusCode := status, limitHeader := lh, remainingHeader := rh, resetHeader := rsh }) m =
        .ok none) ∧
    (∀ (status : Nat) (lh rh rsh m : String), sscanfInt lh = none →
      extractQuotaForModel
          (some { statusCode := status, limitHeader := lh, remainingHeader := rh, resetHeader := rsh }) m =
        .ok none) ∧
    (∀ (status : Nat) (lh rh rsh m : String), sscanfInt lh = some 0 →
      extractQuotaForModel
          (some { statusCode := status, limitHeader := lh, remainingHeader := rh, resetHeader := rsh }) m =
        .ok none) ∧
    (∀ (status : Nat) (lh rh rsh m : String) (limit : Int),
      sscanfInt lh = some limit → limit ≠ 0 → sscanfInt rh = none →
      extractQuotaForModel
          (some { statusCode := status, limitHeader := lh, remainingHeader := rh, resetHeader := rsh }) m =
        .ok none) := by
  have hne : ∀ {x : String} {v : Int}, sscanfInt x = some v → x ≠ "" := by
    intro x v hx hxe
    rw [hxe, sscanfInt_empty] at hx
    exact absurd hx (by simp)
  refine ⟨?_, ?_, ?_, ?_, ?_, ?_⟩
  · intro r1 r2 m h1 h2 h3
    simp [extractQuotaForModel, h1, h2, h3]
  · intro status lh rh rsh m limit remaining hl hl0 hr
    simp [extractQuotaForModel, hne hl, hne hr, hl, hl0, hr]
  · intro status lh rh rsh m hmiss
    rcases hmiss with hmiss | hmiss <;> simp [extractQuotaForModel, hmiss]
  · intro status lh rh rsh m hl
    by_cases hle : lh = "" <;> by_cases hre : rh = "" <;>
      simp [extractQuotaForModel, hl, hle, hre]
  · intro status lh rh rsh m hl
    simp [extractQuotaForModel, hne hl, hl]
  · intro status lh rh rsh m limit hl hl0 hr
    by_cases hre : rh = "" <;>
      simp [extractQuotaForModel, hne hl, hl, hl0, hr, hre]

/-- Claim C10 witness: a 429 probe response with limit 100 and remaining 25
yields a quota entry; the computation never looked at the 429. -/
theorem C10_probe_ignores_status_witness :
    extractQuotaForModel
        (some { statusCode := 429, limitHeader := "100", remainingHeader := "25", resetHeader := "r" })
        "gemini-2.5-pro" =
      .ok (some { model := "gemini-2.5-pro", displayName := getDisplayName "gemini-2.5-pro"
                  remainingPercent := (25 : ℚ) / (100 : ℚ) * 100, resetTime := "r" }) :=
  C10_probe_ignores_status.2.1 429 "100" "25" "r" "gemini-2.5-pro" 100 25
    (by decide) (by decide) (by decide)

end AntigravityQuota
